import Mathlib

/-!
Verification of the student-database backend bookkeeping logic.

The JavaScript source is embedded shallowly:

* Mongoose documents become Lean structures; ObjectId values become `Nat`,
  money amounts become `Int` (JS numbers used as integers), dates become `Nat`
  time stamps.
* A document save is modelled as running the pre-save hooks of the schema and
  then persisting the resulting value.  Audit (`meta`) fields and fields that
  no claim mentions (remarks, certificates, grades, ...) are not modelled.
* On the Student payment plan, `totalFees` and `paidAmount` are `Option Int`:
  `none` stands for an absent value (and for the NaN that arithmetic on an
  absent value produces in JS); `jsAdd` and `jsSub` propagate `none` the way
  JS arithmetic propagates NaN, and `Option.getD 0` models the `x || 0`
  defaulting the source applies at read time.
* Store updates issued with `findByIdAndUpdate` are modelled by explicit
  update documents.  A classic (non-pipeline) update document never evaluates
  aggregation operator expressions: a `$set` whose value is an object built
  from operator keys such as `$subtract` cannot be cast to a `Number` path and
  the whole update is rejected.  This matters for the post-save hook of the
  Payment schema, which writes exactly such a value; the hook catches the
  rejection and only logs it, so the propagation leaves the store unchanged.
* `Math.round` on a non-negative rational `num / den` is half-up rounding,
  `(2 * num + den) / (2 * den)` in integer arithmetic; percentages are
  modelled as exact rationals.
-/

namespace StudentDB

/-- JS `Math.round (num / den)` for non-negative integers, `den > 0`:
round-half-up, computed exactly on rationals. -/
def jsRound (num den : Nat) : Nat := (2 * num + den) / (2 * den)

/-- JS addition where either operand may be absent or NaN (`none`). -/
def jsAdd : Option Int → Option Int → Option Int
  | some a, some b => some (a + b)
  | _, _ => none

/-- JS subtraction where either operand may be absent or NaN (`none`). -/
def jsSub : Option Int → Option Int → Option Int
  | some a, some b => some (a - b)
  | _, _ => none

/-! ## Attendance records and the attendance-percentage call sites -/

/-- Attendance status enum of the Enrollment and Attendance schemas. -/
inductive AttendanceStatus
  | present
  | absent
  | late
  | leave
deriving DecidableEq

/-- One embedded attendance record of an Enrollment
(`src/src/models/Enrollment.js`, `attendance[]`). -/
structure AttendanceRecord where
  date : Nat
  session : Nat
  status : AttendanceStatus
deriving DecidableEq

/-- The `status === 'present' || status === 'late'` test used by every
attendance-percentage site. -/
def isPresentOrLate (r : AttendanceRecord) : Bool :=
  match r.status with
  | .present => true
  | .late => true
  | _ => false

/-- The `attendancePercentage` virtual of the Enrollment schema
(`src/src/models/Enrollment.js` lines 188-196). -/
def enrollmentAttendancePercentage (attendance : List AttendanceRecord) : Nat :=
  if attendance.length = 0 then 0
  else
    let presentDays := (attendance.filter isPresentOrLate).length
    jsRound (100 * presentDays) attendance.length

/-- The helper of the enrollment controller
(`src/src/controllers/enrollmentController.js` lines 93-101). -/
def calculateAttendancePercentage (attendance : List AttendanceRecord) : Nat :=
  if attendance.length = 0 then 0
  else
    let presentDays := (attendance.filter isPresentOrLate).length
    jsRound (100 * presentDays) attendance.length

/-- The inline copy in the student and course controllers
(`src/src/controllers/studentController.js` lines 173-182,
`src/src/controllers/courseController.js` lines 549-558): guard is
`length > 0` instead of an early return, otherwise identical. -/
def inlineAttendancePercentage (attendance : List AttendanceRecord) : Nat :=
  if attendance.length > 0 then
    let presentDays := (attendance.filter isPresentOrLate).length
    jsRound (100 * presentDays) attendance.length
  else 0

/-- One session embedded in a Batch, reduced to the field the roster cache
reads (`src/src/models/Batch.js`, `sessions[]`). -/
structure BatchSession where
  date : Nat
  attendanceTaken : Bool
deriving DecidableEq

/-- The batch roster attendance cache written by the batch controller
(`src/unnamed/part_001` lines 495-503): the numerator is the present-or-late
count of the roster entry, but the denominator is the number of batch
sessions with `attendanceTaken`, not the length of the record list. -/
def batchRosterAttendancePercentage (attendanceRecords : List AttendanceRecord)
    (sessions : List BatchSession) : Nat :=
  let totalSessions := (sessions.filter (fun s => s.attendanceTaken)).length
  let attendedSessions := (attendanceRecords.filter isPresentOrLate).length
  if totalSessions > 0 then jsRound (100 * attendedSessions) totalSessions else 0

/-- The attendance-percentage definition in the words of the spec: count of
records with status present or late, divided by the total record count,
times 100, rounded half-up, and 0 for an empty list.  Stated from the spec
for comparison with the call sites above. -/
def specAttendancePercentage (attendance : List AttendanceRecord) : Nat :=
  if attendance.length = 0 then 0
  else jsRound (100 * (attendance.filter isPresentOrLate).length) attendance.length

/-! ## Enrollment documents and their fee / progress bookkeeping -/

/-- Enrollment status enum (`src/src/models/Enrollment.js`). -/
inductive EnrollmentStatus
  | pending
  | active
  | completed
  | dropped
  | suspended
  | transferred
deriving DecidableEq

/-- The `fees` sub-document of an Enrollment. -/
structure EnrollmentFees where
  total : Int
  paid : Int
  pending : Int
deriving DecidableEq

/-- One payment-plan installment (shared shape of the Enrollment
`paymentPlan[]` and the Student `paymentSchedule[]`). -/
structure Installment where
  installmentNumber : Nat
  dueDate : Nat
  amount : Int
  status : String
  paidAmount : Option Int
  paidDate : Option Nat
deriving DecidableEq

/-- One completed-module record of the Enrollment progress. -/
structure CompletedModule where
  moduleId : Nat
  completedAt : Nat
  score : Option Int
deriving DecidableEq

/-- The `progress` sub-document of an Enrollment. -/
structure EnrollmentProgress where
  percentage : Nat
  completedModules : List CompletedModule
  lastAccessed : Option Nat
deriving DecidableEq

/-- An Enrollment document (`src/src/models/Enrollment.js`). -/
structure Enrollment where
  enrollmentId : Nat
  student : Nat
  course : Nat
  batch : Option Nat
  status : EnrollmentStatus
  fees : EnrollmentFees
  paymentPlan : List Installment
  progress : EnrollmentProgress
  attendance : List AttendanceRecord
deriving DecidableEq

/-- The pre-save hook of the Enrollment schema
(`src/src/models/Enrollment.js` lines 157-185): recompute
`fees.pending = fees.total - fees.paid`, and, when the referenced course was
found (`curr = some curriculum`), recompute the progress percentage from the
completed-module count and the curriculum length (0 when the curriculum is
empty).  ID generation is handled by the callers that create documents. -/
def enrollmentPreSave (curr : Option (List Nat)) (e : Enrollment) : Enrollment :=
  let fees := { e.fees with pending := e.fees.total - e.fees.paid }
  let progress :=
    match curr with
    | some curriculum =>
        let totalModules := curriculum.length
        let completedCount := e.progress.completedModules.length
        { e.progress with
            percentage :=
              if totalModules > 0 then jsRound (100 * completedCount) totalModules else 0 }
    | none => e.progress
  { e with fees := fees, progress := progress }

/-- Installment update shared by the two `updatePayment` methods: if an
installment index was passed and exists, mark it paid. -/
def markInstallmentPaid (schedule : List Installment) (installmentNumber : Option Nat)
    (amount : Int) (now : Nat) : List Installment :=
  match installmentNumber with
  | none => schedule
  | some i =>
      match schedule.get? i with
      | none => schedule
      | some inst =>
          schedule.set i { inst with status := "paid", paidAmount := some amount, paidDate := some now }

/-- The `updatePayment` method of the Enrollment schema
(`src/src/models/Enrollment.js` lines 223-235): add the amount to
`fees.paid`, recompute `fees.pending`, optionally mark an installment paid,
then save (which runs the pre-save hook). -/
def enrollmentUpdatePayment (curr : Option (List Nat)) (amount : Int)
    (installmentNumber : Option Nat) (now : Nat) (e : Enrollment) : Enrollment :=
  let fees := { e.fees with paid := e.fees.paid + amount }
  let fees := { fees with pending := e.fees.total - fees.paid }
  enrollmentPreSave curr
    { e with
        fees := fees,
        paymentPlan := markInstallmentPaid e.paymentPlan installmentNumber amount now }

/-- The find-index-then-assign upsert of `completeModule`
(`src/src/models/Enrollment.js` lines 246-254): replace the first record
with the same `moduleId`, else append. -/
def upsertCompletedModule (ms : List CompletedModule) (m : CompletedModule) :
    List CompletedModule :=
  match ms with
  | [] => [m]
  | x :: xs => if x.moduleId = m.moduleId then m :: xs else x :: upsertCompletedModule xs m

/-- The `completeModule` method of the Enrollment schema
(`src/src/models/Enrollment.js` lines 238-258): upsert the completion record
keyed by `moduleId`, stamp `lastAccessed`, then save (pre-save hook
recomputes the percentage against the current curriculum). -/
def completeModule (curr : Option (List Nat)) (moduleId : Nat) (score : Option Int)
    (now : Nat) (e : Enrollment) : Enrollment :=
  enrollmentPreSave curr
    { e with
        progress :=
          { e.progress with
              completedModules :=
                upsertCompletedModule e.progress.completedModules
                  { moduleId := moduleId, completedAt := now, score := score },
              lastAccessed := some now } }

/-! ## Classic store updates and the Payment post-save propagation

`findByIdAndUpdate` with a plain object argument issues a classic update.
Such an update assigns `$set` values literally: aggregation operator
expressions are not evaluated there, and an object value built from operator
keys cannot be cast to a `Number` schema path, so the whole update command is
rejected.  The Payment post-save hook (`src/src/models/Lead.js` lines
286-312) writes exactly such a value and wraps the calls in try/catch that
only logs, which makes the propagation leave the store unchanged. -/

/-- An aggregation operator expression as it appears, uninterpreted, inside a
classic update document. -/
inductive AggExpr
  | fieldPath (path : String)
  | lit (n : Int)
  | addExpr (a b : AggExpr)
  | subExpr (a b : AggExpr)
deriving DecidableEq

/-- The value given to `$set` for one numeric path in a classic update:
either a number literal, or an operator-expression object. -/
inductive SetValue
  | num (n : Int)
  | expr (e : AggExpr)
deriving DecidableEq

/-- Casting a `$set` value to a `Number` schema path: a literal casts to
itself; an operator-expression object does not cast, and its presence rejects
the update it belongs to. -/
def castSetValueToNumber : SetValue → Option Int
  | .num n => some n
  | .expr _ => none

/-- The update document the Payment post-save hook issues against the linked
Enrollment: `$inc fees.paid` by the amount, and `$set fees.pending` to the
object `{$subtract: [$fees.total, {$add: [$fees.paid, amount]}]}`. -/
def paymentEnrollmentUpdateDoc (amount : Int) : Int × SetValue :=
  (amount,
   .expr (.subExpr (.fieldPath "$fees.total") (.addExpr (.fieldPath "$fees.paid") (.lit amount))))

/-- The update document the Payment post-save hook issues against the
Student: `$inc paymentPlan.paidAmount` by the amount, and
`$set paymentPlan.pendingAmount` to the analogous `$subtract` object. -/
def paymentStudentUpdateDoc (amount : Int) : Int × SetValue :=
  (amount,
   .expr (.subExpr (.fieldPath "$paymentPlan.totalFees")
     (.addExpr (.fieldPath "$paymentPlan.paidAmount") (.lit amount))))

/-- Applying a classic `{$inc paid, $set pending}` update to Enrollment fees.
`none` means the update was rejected (nothing applied, updates are atomic per
document). -/
def applyEnrollmentFeeUpdate (doc : Int × SetValue) (f : EnrollmentFees) :
    Option EnrollmentFees :=
  match castSetValueToNumber doc.2 with
  | some n => some { f with paid := f.paid + doc.1, pending := n }
  | none => none

/-- A Payment document (`src/src/models/Lead.js`, payment schema), reduced to
the fields the bookkeeping reads. -/
structure Payment where
  paymentId : Nat
  student : Nat
  enrollment : Option Nat
  amount : Int
  status : String
deriving DecidableEq

/-- The enrollment half of the Payment post-save hook
(`src/src/models/Lead.js` lines 302-308): attempt the classic update; the
catch block only logs a rejection, so the enrollment is returned unchanged
when the update is rejected. -/
def paymentPostSaveOnEnrollment (amount : Int) (e : Enrollment) : Enrollment :=
  match applyEnrollmentFeeUpdate (paymentEnrollmentUpdateDoc amount) e.fees with
  | some fees => { e with fees := fees }
  | none => e

/-! ## Student documents and their fee bookkeeping -/

/-- The `paymentPlan` sub-document of a Student
(`src/src/models/Student.js`).  `totalFees` and `paidAmount` are optional:
`none` stands for an absent value or a NaN produced from one. -/
structure StudentPaymentPlan where
  totalFees : Option Int
  paidAmount : Option Int
  pendingAmount : Option Int
  paymentSchedule : List Installment
deriving DecidableEq

/-- A Student document (`src/src/models/Student.js`), reduced to the fields
the fee and enrollment bookkeeping touches. -/
structure Student where
  studentId : Nat
  fullName : String
  phone : String
  enrollments : List Nat
  paymentPlan : StudentPaymentPlan
  status : String
deriving DecidableEq

/-- The pre-save hook of the Student schema (`src/src/models/Student.js`
lines 247-264): recompute `pendingAmount = totalFees - paidAmount`.  ID
generation is handled by the callers that create documents. -/
def studentPreSave (s : Student) : Student :=
  { s with
      paymentPlan :=
        { s.paymentPlan with
            pendingAmount := jsSub s.paymentPlan.totalFees s.paymentPlan.paidAmount } }

/-- The `updatePayment` method of the Student schema
(`src/src/models/Student.js` lines 291-303): add the amount to `paidAmount`,
recompute `pendingAmount`, optionally mark an installment paid, then save
(which runs the pre-save hook). -/
def studentUpdatePayment (amount : Int) (installmentNumber : Option Nat) (now : Nat)
    (s : Student) : Student :=
  let paid := jsAdd s.paymentPlan.paidAmount (some amount)
  studentPreSave
    { s with
        paymentPlan :=
          { s.paymentPlan with
              paidAmount := paid,
              pendingAmount := jsSub s.paymentPlan.totalFees paid,
              paymentSchedule :=
                markInstallmentPaid s.paymentPlan.paymentSchedule installmentNumber amount now } }

/-- The student half of the Payment post-save hook
(`src/src/models/Lead.js` lines 292-300), with the same rejected-update
outcome as the enrollment half. -/
def paymentPostSaveOnStudent (amount : Int) (s : Student) : Student :=
  match castSetValueToNumber (paymentStudentUpdateDoc amount).2 with
  | some n =>
      { s with
          paymentPlan :=
            { s.paymentPlan with
                paidAmount := jsAdd s.paymentPlan.paidAmount (some (paymentStudentUpdateDoc amount).1),
                pendingAmount := some n } }
  | none => s

/-- The fee summary value built by `getFeeSummary`
(`src/src/models/Student.js` lines 306-319). -/
structure FeeSummary where
  totalFees : Int
  paidAmount : Int
  pendingAmount : Int
  paidPercentage : ℚ
  installments : List Installment
deriving DecidableEq

/-- The `getFeeSummary` method of the Student schema
(`src/src/models/Student.js` lines 306-319): default the stored `totalFees`
and `paidAmount` with `|| 0`, recompute `pendingAmount` from those two at
read time, and never read the stored `pendingAmount`.  The `toFixed(2)`
string formatting of `paidPercentage` is not modelled; the exact rational is
kept. -/
def getFeeSummary (s : Student) : FeeSummary :=
  let totalFees := s.paymentPlan.totalFees.getD 0
  let paidAmount := s.paymentPlan.paidAmount.getD 0
  let pendingAmount := totalFees - paidAmount
  { totalFees := totalFees
    paidAmount := paidAmount
    pendingAmount := pendingAmount
    paidPercentage := if totalFees > 0 then (paidAmount : ℚ) / (totalFees : ℚ) * 100 else 0
    installments := s.paymentPlan.paymentSchedule }

/-- An HTTP response, reduced to status code, success flag and message. -/
structure Resp where
  status : Nat
  success : Bool
  message : String
deriving DecidableEq

/-- The student payment endpoint
(`src/src/controllers/studentController.js` lines 647-703), after the
student was found: call the `updatePayment` method of the student, then
create a completed Payment row for the student (no enrollment is linked on
this route).  Creating the Payment fires the post-save hook, whose student
update is rejected (see above).  Returns the saved student and the payment
row. -/
def recordStudentPayment (s : Student) (amount : Int) (installmentNumber : Option Nat)
    (paymentId : Nat) (now : Nat) : Student × Payment :=
  let s1 := studentUpdatePayment amount installmentNumber now s
  let payment : Payment :=
    { paymentId := paymentId, student := s.studentId, enrollment := none,
      amount := amount, status := "completed" }
  let s2 := paymentPostSaveOnStudent amount s1
  (s2, payment)

/-! ## Batch documents and roster operations -/

/-- Roster entry status enum (`src/src/models/Batch.js`, `students[]`). -/
inductive RosterStatus
  | active
  | completed
  | dropped
  | transferred
deriving DecidableEq

/-- One roster entry of a Batch. -/
structure RosterEntry where
  student : Nat
  enrollmentDate : Nat
  status : RosterStatus
deriving DecidableEq

/-- A Batch document (`src/src/models/Batch.js`), reduced to capacity,
occupancy, roster and sessions. -/
structure Batch where
  batchId : Nat
  course : Nat
  maxStudents : Int
  currentStudents : Int
  students : List RosterEntry
  sessions : List BatchSession
deriving DecidableEq

/-- The add-student-to-batch endpoint (`src/unnamed/part_001` lines
290-361), after batch and student were found: reject when the batch is full,
reject a duplicate roster entry, else push an active roster entry and
increment `currentStudents`. -/
def addStudentToBatch (b : Batch) (studentId : Nat) (now : Nat) : Resp × Batch :=
  if b.currentStudents ≥ b.maxStudents then
    ({ status := 400, success := false, message := "Batch is full" }, b)
  else if b.students.any (fun s => s.student = studentId) then
    ({ status := 400, success := false, message := "Student already enrolled in this batch" }, b)
  else
    let b := { b with
        students := b.students ++ [{ student := studentId, enrollmentDate := now, status := .active }],
        currentStudents := b.currentStudents + 1 }
    ({ status := 200, success := true, message := "Student added to batch successfully" }, b)

/-- Removing the first roster entry of a student, as
`findIndex` plus `splice` does. -/
def removeRosterEntry (students : List RosterEntry) (studentId : Nat) : List RosterEntry :=
  match students with
  | [] => []
  | x :: xs => if x.student = studentId then xs else x :: removeRosterEntry xs studentId

/-- The remove-student-from-batch endpoint (`src/unnamed/part_001` lines
366-408), after the batch was found: 404 when the student has no roster
entry, else splice the entry out and decrement `currentStudents`, clamped at
0 by `Math.max`. -/
def removeStudentFromBatch (b : Batch) (studentId : Nat) : Resp × Batch :=
  if b.students.any (fun s => s.student = studentId) then
    let b := { b with
        students := removeRosterEntry b.students studentId,
        currentStudents := max 0 (b.currentStudents - 1) }
    ({ status := 200, success := true, message := "Student removed from batch successfully" }, b)
  else
    ({ status := 404, success := false, message := "Student not found in this batch" }, b)

/-- Roster entries with active status; the spec calls these the entries
with active-like status. -/
def activeRosterCount (b : Batch) : Nat :=
  (b.students.filter (fun s => s.status = RosterStatus.active)).length

/-- The batch seat invariant stated by the spec: `currentStudents` equals
the count of roster entries with active-like status. -/
def batchSeatInvariant (b : Batch) : Prop :=
  b.currentStudents = (activeRosterCount b : Int)

/-! ## Course enrollment statistics -/

/-- The `enrollmentStats` counter object of a Course
(`src/src/models/Course.js`). -/
@[ext]
structure EnrollmentStats where
  totalEnrolled : Nat
  active : Nat
  completed : Nat
  dropout : Nat
deriving DecidableEq

/-- A Course document (`src/src/models/Course.js`), reduced to curriculum
and enrollment statistics; curriculum modules are their ids. -/
structure Course where
  courseId : Nat
  curriculum : List Nat
  enrollmentStats : EnrollmentStats
deriving DecidableEq

/-- All values of the enrollment status enum. -/
def allEnrollmentStatuses : List EnrollmentStatus :=
  [.pending, .active, .completed, .dropped, .suspended, .transferred]

/-- The `$group: {_id: $status, count: {$sum: 1}}` stage over the
enrollments of one course: one `(status, count)` group per status value that
occurs.  The store reports the groups in an unspecified order; they are
listed here in enum order, which the order-independent fold below consumes. -/
def aggregateEnrollmentsByStatus (matched : List Enrollment) :
    List (EnrollmentStatus × Nat) :=
  (allEnrollmentStatuses.map
      (fun st => (st, matched.countP (fun e => e.status = st)))).filter
    (fun g => 0 < g.2)

/-- The body of the `forEach` fold over the aggregation result
(`src/src/controllers/enrollmentController.js` lines 250-255): add every
count to `totalEnrolled`, and assign the count of the active, completed and
dropped groups to the matching field. -/
def applyStatGroup (st : EnrollmentStats) (g : EnrollmentStatus × Nat) : EnrollmentStats :=
  let st := { st with totalEnrolled := st.totalEnrolled + g.2 }
  let st := if g.1 = .active then { st with active := g.2 } else st
  let st := if g.1 = .completed then { st with completed := g.2 } else st
  if g.1 = .dropped then { st with dropout := g.2 } else st

/-- Folding the groups into the zero-initialised stats object. -/
def foldStatGroups : List (EnrollmentStatus × Nat) → EnrollmentStats → EnrollmentStats
  | [], st => st
  | g :: gs, st => foldStatGroups gs (applyStatGroup st g)

/-- The course stats recount
(`src/src/controllers/enrollmentController.js` lines 231-260, and the
identical `updateEnrollmentStats` method in `src/src/models/Course.js` lines
235-263): aggregate all Enrollment documents of the course, group by status,
and fold the groups into a fresh stats object. -/
def updateCourseEnrollmentStats (enrollments : List Enrollment) (courseId : Nat) :
    EnrollmentStats :=
  let matched := enrollments.filter (fun e => e.course = courseId)
  foldStatGroups (aggregateEnrollmentsByStatus matched)
    { totalEnrolled := 0, active := 0, completed := 0, dropout := 0 }

/-! ## Leads -/

/-- A Lead document (`src/src/models/Lead.js`), reduced to the conversion
fields. -/
structure Lead where
  leadId : Nat
  fullName : String
  phone : String
  status : String
  convertedToStudent : Bool
  convertedDate : Option Nat
  convertedStudentId : Option Nat
deriving DecidableEq

/-! ## The document store -/

/-- The collections the claims touch, plus the id counters the pre-save
hooks consume. -/
structure DB where
  enrollments : List Enrollment
  students : List Student
  batches : List Batch
  courses : List Course
  leads : List Lead
  enrollmentSeq : Nat
  studentSeq : Nat
deriving DecidableEq

/-- `Batch.findByIdAndUpdate(id, {$inc: {currentStudents: n}})`: a plain
counter increment, touching no other field of the batch and nothing when no
batch has the id. -/
def incBatchCurrentStudents (batches : List Batch) (batchId : Nat) (n : Int) : List Batch :=
  batches.map (fun b =>
    if b.batchId = batchId then { b with currentStudents := b.currentStudents + n } else b)

/-- `Student.findByIdAndUpdate(id, {$push: {enrollments: ref}})`. -/
def pushEnrollmentRef (students : List Student) (studentId : Nat) (ref : Nat) : List Student :=
  students.map (fun s =>
    if s.studentId = studentId then { s with enrollments := s.enrollments ++ [ref] } else s)

/-- `Course.findByIdAndUpdate(id, {enrollmentStats: stats})` with the stats
recounted over the given enrollment collection. -/
def setCourseStats (courses : List Course) (enrollments : List Enrollment) (courseId : Nat) :
    List Course :=
  courses.map (fun c =>
    if c.courseId = courseId then
      { c with enrollmentStats := updateCourseEnrollmentStats enrollments courseId }
    else c)

/-- The duplicate-enrollment lookup both creation paths run:
`Enrollment.findOne({student, course, status: {$in: [pending, active]}})`. -/
def findDuplicateEnrollment (enrollments : List Enrollment) (student course : Nat) :
    Option Enrollment :=
  enrollments.find? (fun e =>
    e.student = student && e.course = course
      && (e.status = EnrollmentStatus.pending || e.status = EnrollmentStatus.active))

/-- The request body of the enrollment-creation endpoint, reduced to the
fields the controller reads; `fees` carries the schema defaults
(`paid = 0, pending = 0`) when the body leaves them out and `status`
defaults to pending. -/
structure CreateEnrollmentReq where
  student : Nat
  course : Nat
  batch : Option Nat
  status : EnrollmentStatus
  fees : EnrollmentFees
deriving DecidableEq

/-- `Enrollment.create`: assign the next counter value as id and run the
pre-save hook (which recomputes `fees.pending` and, when the course was
found, the progress percentage). -/
def createEnrollmentDoc (db : DB) (req : CreateEnrollmentReq) : Enrollment :=
  enrollmentPreSave ((db.courses.find? (fun c => c.courseId = req.course)).map Course.curriculum)
    { enrollmentId := db.enrollmentSeq + 1
      student := req.student
      course := req.course
      batch := req.batch
      status := req.status
      fees := req.fees
      paymentPlan := []
      progress := { percentage := 0, completedModules := [], lastAccessed := none }
      attendance := [] }

/-- The enrollment-creation endpoint
(`src/src/controllers/enrollmentController.js` lines 142-228): reject a
duplicate (student, course) pair in status pending or active with 400,
reject a full batch with 400, otherwise create the enrollment, push its
reference onto the student, increment the batch occupancy, and recount the
course stats over the post-insert collection. -/
def createEnrollment (db : DB) (req : CreateEnrollmentReq) : Resp × DB :=
  if (findDuplicateEnrollment db.enrollments req.student req.course).isSome then
    ({ status := 400, success := false,
       message := "Student is already enrolled or has a pending enrollment for this course" }, db)
  else
    let batchFull : Bool :=
      match req.batch with
      | some bid =>
          match db.batches.find? (fun b => b.batchId = bid) with
          | some b => b.currentStudents ≥ b.maxStudents
          | none => false
      | none => false
    if batchFull then
      ({ status := 400, success := false, message := "Selected batch is full" }, db)
    else
      let e := createEnrollmentDoc db req
      let enrollments := db.enrollments ++ [e]
      let db :=
        { db with
            enrollments := enrollments
            students := pushEnrollmentRef db.students req.student e.enrollmentId
            batches :=
              match req.batch with
              | some bid => incBatchCurrentStudents db.batches bid 1
              | none => db.batches
            courses := setCourseStats db.courses enrollments req.course
            enrollmentSeq := db.enrollmentSeq + 1 }
      ({ status := 201, success := true, message := "Enrollment created successfully" }, db)

/-- The request body of the student-enrollment endpoint
(`src/src/controllers/studentController.js` lines 561-642). -/
structure EnrollStudentReq where
  course : Nat
  batch : Option Nat
  feesTotal : Int
deriving DecidableEq

/-- One student updated in place in the collection, as saving a found
document does (ids are unique). -/
def replaceStudent (students : List Student) (studentId : Nat) (s : Student) : List Student :=
  match students with
  | [] => []
  | x :: xs => if x.studentId = studentId then s :: xs else x :: replaceStudent xs studentId s

/-- The student-enrollment endpoint
(`src/src/controllers/studentController.js` lines 561-642), after the
student was found: the same duplicate rejection with 400, then an enrollment
created with `fees = {total, paid: 0, pending: total}`, the reference pushed
onto the student document and saved, and the student payment plan rebuilt
with the new course fees added to the `|| 0`-defaulted stored amounts and
saved again.  This route neither checks nor updates batch occupancy and does
not recount course stats. -/
def enrollStudent (db : DB) (studentId : Nat) (req : EnrollStudentReq) : Resp × DB :=
  match db.students.find? (fun s => s.studentId = studentId) with
  | none => ({ status := 404, success := false, message := "Student not found" }, db)
  | some student =>
    if (findDuplicateEnrollment db.enrollments studentId req.course).isSome then
      ({ status := 400, success := false,
         message := "Student is already enrolled or has a pending enrollment for this course" }, db)
    else
      let e := createEnrollmentDoc db
        { student := studentId, course := req.course, batch := req.batch,
          status := .pending,
          fees := { total := req.feesTotal, paid := 0, pending := req.feesTotal } }
      let s1 := studentPreSave { student with enrollments := student.enrollments ++ [e.enrollmentId] }
      let newTotalFees := s1.paymentPlan.totalFees.getD 0 + req.feesTotal
      let newPendingAmount := newTotalFees - s1.paymentPlan.paidAmount.getD 0
      let s2 := studentPreSave
        { s1 with
            paymentPlan :=
              { totalFees := some newTotalFees
                paidAmount := some (s1.paymentPlan.paidAmount.getD 0)
                pendingAmount := some newPendingAmount
                paymentSchedule := s1.paymentPlan.paymentSchedule } }
      let db :=
        { db with
            enrollments := db.enrollments ++ [e]
            students := replaceStudent db.students studentId s2
            enrollmentSeq := db.enrollmentSeq + 1 }
      ({ status := 201, success := true, message := "Student enrolled successfully" }, db)

/-- One lead updated in place in the collection, as saving a found document
does (ids are unique). -/
def replaceLead (leads : List Lead) (leadId : Nat) (l : Lead) : List Lead :=
  match leads with
  | [] => []
  | x :: xs => if x.leadId = leadId then l :: xs else x :: replaceLead xs leadId l

/-- The Student document the lead-conversion endpoint passes to
`Student.create` (`src/src/controllers/enrollmentController.js` lines
1208-1231): identity copied from the lead, admission metadata, and no
`paymentPlan` in the body at all, so the schema defaults fill
`paidAmount = 0` and `pendingAmount = 0` while `totalFees` — which has no
default — stays absent. -/
def leadStudentDoc (lead : Lead) (studentId : Nat) : Student :=
  { studentId := studentId
    fullName := lead.fullName
    phone := lead.phone
    enrollments := []
    paymentPlan :=
      { totalFees := none, paidAmount := some 0, pendingAmount := some 0, paymentSchedule := [] }
    status := "active" }

/-- `Student.create`: the schema (`src/src/models/Student.js` lines 140-144)
marks `paymentPlan.totalFees` as required with no default, and nothing on
the create path sets it, so a document with `totalFees` absent is rejected
with a ValidationError (`none`); otherwise the pre-save hook runs and the
document persists. -/
def studentCreate (s : Student) : Option Student :=
  if s.paymentPlan.totalFees.isSome then some (studentPreSave s) else none

/-- The lead-conversion endpoint
(`src/src/controllers/enrollmentController.js` lines 1189-1268): 404 when
the lead is absent, 400 when `convertedToStudent` is already set (and then
nothing is created or changed); otherwise `Student.create` is attempted on
`leadStudentDoc` — which is rejected by the required-field validation, and
since the catch block translates only duplicate-key errors (code 11000) to
400, the endpoint answers 500 "Server error" with nothing written.  The
success branch below mirrors the source lines 1233-1252 (append the
student, flag and link the lead, status converted), which that validation
makes unreachable from this endpoint. -/
def convertToStudent (db : DB) (leadId : Nat) (now : Nat) : Resp × DB :=
  match db.leads.find? (fun l => l.leadId = leadId) with
  | none => ({ status := 404, success := false, message := "Lead not found" }, db)
  | some lead =>
    if lead.convertedToStudent then
      ({ status := 400, success := false, message := "Lead already converted to student" }, db)
    else
      match studentCreate (leadStudentDoc lead (db.studentSeq + 1)) with
      | none => ({ status := 500, success := false, message := "Server error" }, db)
      | some student =>
        let converted : Lead :=
          { lead with
              convertedToStudent := true
              convertedDate := some now
              convertedStudentId := some student.studentId
              status := "converted" }
        let db :=
          { db with
              students := db.students ++ [student]
              leads := replaceLead db.leads leadId converted
              studentSeq := db.studentSeq + 1 }
        ({ status := 201, success := true, message := "Lead converted to student successfully" }, db)

/-! ## The payment-recording operations on an enrollment fee ledger -/

/-- The fee invariant of the spec: `fees.pending == fees.total - fees.paid`. -/
def enrollmentFeeInvariant (e : Enrollment) : Prop :=
  e.fees.pending = e.fees.total - e.fees.paid

/-- The operations that touch the fee ledger of an Enrollment when a payment
is recorded: a document save (pre-save hook), the `updatePayment` method,
and the post-save propagation of a Payment linked to the enrollment. -/
inductive PaymentFeeOp
  | save (curr : Option (List Nat))
  | methodUpdatePayment (curr : Option (List Nat)) (amount : Int)
      (installmentNumber : Option Nat) (now : Nat)
  | postSavePropagation (amount : Int)

/-- Applying one payment-recording operation to an enrollment. -/
def applyPaymentFeeOp : PaymentFeeOp → Enrollment → Enrollment
  | .save curr, e => enrollmentPreSave curr e
  | .methodUpdatePayment curr amount inst now, e =>
      enrollmentUpdatePayment curr amount inst now e
  | .postSavePropagation amount, e => paymentPostSaveOnEnrollment amount e

/-- HTTP status of the Conflict class of the error taxonomy the spec lays
out; the taxonomy separates Conflict from BadRequest (400), and in HTTP
terms Conflict is 409.  Spec-side constant for comparison with the status
codes the controllers return. -/
def httpConflict : Nat := 409

/-- A sample enrollment holding one completed module (id 5), used by
concrete instantiations below. -/
def enrollmentWithModuleFive : Enrollment :=
  { enrollmentId := 1, student := 1, course := 1, batch := none,
    status := .active, fees := { total := 0, paid := 0, pending := 0 },
    paymentPlan := [],
    progress :=
      { percentage := 50,
        completedModules := [{ moduleId := 5, completedAt := 1, score := none }],
        lastAccessed := none },
    attendance := [] }

/-- A sample empty batch with id 7 and capacity 5. -/
def batchSeven : Batch :=
  { batchId := 7, course := 1, maxStudents := 5, currentStudents := 0,
    students := [], sessions := [] }

/-- A sample store holding `batchSeven` and course 1 with an empty
curriculum. -/
def dbWithBatchSeven : DB :=
  { enrollments := [], students := [], batches := [batchSeven],
    courses :=
      [{ courseId := 1, curriculum := [],
         enrollmentStats := { totalEnrolled := 0, active := 0, completed := 0, dropout := 0 } }],
    leads := [], enrollmentSeq := 0, studentSeq := 0 }

/-- A sample enrollment-creation request for student 1, course 1, batch 7. -/
def reqBatchSeven : CreateEnrollmentReq :=
  { student := 1, course := 1, batch := some 7, status := .pending,
    fees := { total := 1000, paid := 0, pending := 0 } }

/-- A sample active enrollment of student 1 in course 1. -/
def activeEnrollmentOneOne : Enrollment :=
  { enrollmentId := 1, student := 1, course := 1, batch := none,
    status := .active, fees := { total := 1000, paid := 0, pending := 1000 },
    paymentPlan := [],
    progress := { percentage := 0, completedModules := [], lastAccessed := none },
    attendance := [] }

/-- A sample store already holding `activeEnrollmentOneOne`. -/
def dbWithActiveEnrollment : DB :=
  { enrollments := [activeEnrollmentOneOne], students := [], batches := [],
    courses := [], leads := [], enrollmentSeq := 1, studentSeq := 1 }

/-- A sample enrollment with `fees = {total: 10000, paid: 0, pending: 10000}`. -/
def enrollmentTenK : Enrollment :=
  { enrollmentId := 1, student := 1, course := 1, batch := none,
    status := .active, fees := { total := 10000, paid := 0, pending := 10000 },
    paymentPlan := [],
    progress := { percentage := 0, completedModules := [], lastAccessed := none },
    attendance := [] }

/-- A sample student with `totalFees = 10000` and `paidAmount = 0`. -/
def studentTenK : Student :=
  { studentId := 1, fullName := "Asha", phone := "90000", enrollments := [],
    paymentPlan :=
      { totalFees := some 10000, paidAmount := some 0, pendingAmount := some 10000,
        paymentSchedule := [] },
    status := "active" }

/-- A sample unconverted lead with id 9. -/
def leadNine : Lead :=
  { leadId := 9, fullName := "Lena", phone := "80000", status := "new",
    convertedToStudent := false, convertedDate := none, convertedStudentId := none }

/-- A sample store holding only `leadNine`. -/
def dbWithLeadNine : DB :=
  { enrollments := [], students := [], batches := [], courses := [],
    leads := [leadNine], enrollmentSeq := 0, studentSeq := 0 }

/-! ## Supporting lemmas -/

lemma upsertCompletedModule_length_of_mem (ms : List CompletedModule) (m : CompletedModule)
    (h : ∃ x ∈ ms, x.moduleId = m.moduleId) :
    (upsertCompletedModule ms m).length = ms.length := by
  induction ms with
  | nil => simp at h
  | cons x xs ih =>
      by_cases hx : x.moduleId = m.moduleId
      · simp [upsertCompletedModule, hx]
      · obtain ⟨y, hy, hid⟩ := h
        rcases List.mem_cons.mp hy with hy | hy
        · exact absurd (hy ▸ hid) hx
        · simp [upsertCompletedModule, hx, ih ⟨y, hy, hid⟩]

lemma upsertCompletedModule_length_of_not_mem (ms : List CompletedModule) (m : CompletedModule)
    (h : ∀ x ∈ ms, x.moduleId ≠ m.moduleId) :
    (upsertCompletedModule ms m).length = ms.length + 1 := by
  induction ms with
  | nil => rfl
  | cons x xs ih =>
      have hx : x.moduleId ≠ m.moduleId := h x (by simp)
      simp [upsertCompletedModule, hx]
      exact ih (fun y hy => h y (by simp [hy]))

lemma applyStatGroup_totalEnrolled (st : EnrollmentStats) (g : EnrollmentStatus × Nat) :
    (applyStatGroup st g).totalEnrolled = st.totalEnrolled + g.2 := by
  unfold applyStatGroup
  split <;> split <;> split <;> rfl

lemma applyStatGroup_active (st : EnrollmentStats) (g : EnrollmentStatus × Nat) :
    (applyStatGroup st g).active = if g.1 = .active then g.2 else st.active := by
  unfold applyStatGroup
  split <;> split <;> split <;> simp_all

lemma applyStatGroup_completed (st : EnrollmentStats) (g : EnrollmentStatus × Nat) :
    (applyStatGroup st g).completed = if g.1 = .completed then g.2 else st.completed := by
  unfold applyStatGroup
  split <;> split <;> split <;> simp_all

lemma applyStatGroup_dropout (st : EnrollmentStats) (g : EnrollmentStatus × Nat) :
    (applyStatGroup st g).dropout = if g.1 = .dropped then g.2 else st.dropout := by
  unfold applyStatGroup
  split <;> split <;> split <;> simp_all

lemma foldStatGroups_totalEnrolled (gs : List (EnrollmentStatus × Nat)) (st : EnrollmentStats) :
    (foldStatGroups gs st).totalEnrolled = st.totalEnrolled + (gs.map Prod.snd).sum := by
  induction gs generalizing st with
  | nil => simp [foldStatGroups]
  | cons g t ih =>
      simp [foldStatGroups, ih, applyStatGroup_totalEnrolled]
      omega

lemma foldStatGroups_active (gs : List (EnrollmentStatus × Nat)) (st : EnrollmentStats)
    (c : Nat) (hc : ∀ g ∈ gs, g.1 = .active → g.2 = c)
    (hst : st.active = c ∨ ∃ g ∈ gs, g.1 = .active) :
    (foldStatGroups gs st).active = c := by
  induction gs generalizing st with
  | nil =>
      rcases hst with hst | ⟨g, hg, _⟩
      · exact hst
      · simp at hg
  | cons g t ih =>
      by_cases hg : g.1 = .active
      · exact ih (applyStatGroup st g)
          (fun x hx => hc x (List.mem_cons_of_mem g hx))
          (Or.inl (by rw [applyStatGroup_active, if_pos hg]
                      exact hc g (List.mem_cons_self g t) hg))
      · refine ih (applyStatGroup st g)
          (fun x hx => hc x (List.mem_cons_of_mem g hx)) ?_
        rcases hst with hst | ⟨x, hx, hxa⟩
        · exact Or.inl (by rw [applyStatGroup_active, if_neg hg]; exact hst)
        · rcases List.mem_cons.mp hx with hx | hx
          · exact absurd (hx ▸ hxa) hg
          · exact Or.inr ⟨x, hx, hxa⟩

lemma foldStatGroups_completed (gs : List (EnrollmentStatus × Nat)) (st : EnrollmentStats)
    (c : Nat) (hc : ∀ g ∈ gs, g.1 = .completed → g.2 = c)
    (hst : st.completed = c ∨ ∃ g ∈ gs, g.1 = .completed) :
    (foldStatGroups gs st).completed = c := by
  induction gs generalizing st with
  | nil =>
      rcases hst with hst | ⟨g, hg, _⟩
      · exact hst
      · simp at hg
  | cons g t ih =>
      by_cases hg : g.1 = .completed
      · exact ih (applyStatGroup st g)
          (fun x hx => hc x (List.mem_cons_of_mem g hx))
          (Or.inl (by rw [applyStatGroup_completed, if_pos hg]
                      exact hc g (List.mem_cons_self g t) hg))
      · refine ih (applyStatGroup st g)
          (fun x hx => hc x (List.mem_cons_of_mem g hx)) ?_
        rcases hst with hst | ⟨x, hx, hxa⟩
        · exact Or.inl (by rw [applyStatGroup_completed, if_neg hg]; exact hst)
        · rcases List.mem_cons.mp hx with hx | hx
          · exact absurd (hx ▸ hxa) hg
          · exact Or.inr ⟨x, hx, hxa⟩

lemma foldStatGroups_dropout (gs : List (EnrollmentStatus × Nat)) (st : EnrollmentStats)
    (c : Nat) (hc : ∀ g ∈ gs, g.1 = .dropped → g.2 = c)
    (hst : st.dropout = c ∨ ∃ g ∈ gs, g.1 = .dropped) :
    (foldStatGroups gs st).dropout = c := by
  induction gs generalizing st with
  | nil =>
      rcases hst with hst | ⟨g, hg, _⟩
      · exact hst
      · simp at hg
  | cons g t ih =>
      by_cases hg : g.1 = .dropped
      · exact ih (applyStatGroup st g)
          (fun x hx => hc x (List.mem_cons_of_mem g hx))
          (Or.inl (by rw [applyStatGroup_dropout, if_pos hg]
                      exact hc g (List.mem_cons_self g t) hg))
      · refine ih (applyStatGroup st g)
          (fun x hx => hc x (List.mem_cons_of_mem g hx)) ?_
        rcases hst with hst | ⟨x, hx, hxa⟩
        · exact Or.inl (by rw [applyStatGroup_dropout, if_neg hg]; exact hst)
        · rcases List.mem_cons.mp hx with hx | hx
          · exact absurd (hx ▸ hxa) hg
          · exact Or.inr ⟨x, hx, hxa⟩

lemma aggregate_mem_count (matched : List Enrollment) (g : EnrollmentStatus × Nat)
    (hg : g ∈ aggregateEnrollmentsByStatus matched) :
    g.2 = matched.countP (fun e => e.status = g.1) := by
  simp only [aggregateEnrollmentsByStatus, List.mem_filter, List.mem_map] at hg
  obtain ⟨⟨st, _, rfl⟩, _⟩ := hg
  rfl

lemma aggregate_mem_of_pos (matched : List Enrollment) (st : EnrollmentStatus)
    (h : 0 < matched.countP (fun e => e.status = st)) :
    (st, matched.countP (fun e => e.status = st)) ∈ aggregateEnrollmentsByStatus matched := by
  simp only [aggregateEnrollmentsByStatus, List.mem_filter, List.mem_map]
  refine ⟨⟨st, ?_, rfl⟩, by simpa using h⟩
  cases st <;> simp [allEnrollmentStatuses]

lemma filter_pos_snd_sum (gs : List (EnrollmentStatus × Nat)) :
    ((gs.filter (fun g => 0 < g.2)).map Prod.snd).sum = (gs.map Prod.snd).sum := by
  induction gs with
  | nil => rfl
  | cons g t ih =>
      by_cases hg : 0 < g.2
      · simp [List.filter_cons, hg, ih]
      · have hz : g.2 = 0 := by omega
        simp [List.filter_cons, hg, ih, hz]

lemma sum_status_counts (matched : List Enrollment) :
    (allEnrollmentStatuses.map (fun st => matched.countP (fun e => e.status = st))).sum
      = matched.length := by
  induction matched with
  | nil => simp [allEnrollmentStatuses]
  | cons e t ih =>
      simp only [allEnrollmentStatuses, List.map_cons, List.map_nil, List.sum_cons,
        List.sum_nil, List.countP_cons, List.length_cons] at ih ⊢
      cases he : e.status <;> simp [he] <;> omega

lemma aggregate_snd_sum (matched : List Enrollment) :
    ((aggregateEnrollmentsByStatus matched).map Prod.snd).sum = matched.length := by
  unfold aggregateEnrollmentsByStatus
  rw [filter_pos_snd_sum, List.map_map]
  simpa [Function.comp] using sum_status_counts matched

/-! ## Claims -/

/-- Claim C1: for every Enrollment and every payment-recording operation (a
document save running the pre-save hook, the updatePayment method, and the
post-save propagation of a linked Payment), an enrollment satisfying
`fees.pending = fees.total - fees.paid` still satisfies it after the
operation; the save and the method moreover establish it outright. -/
theorem c1_enrollment_fee_invariant (e : Enrollment) (op : PaymentFeeOp)
    (h : enrollmentFeeInvariant e) :
    enrollmentFeeInvariant (applyPaymentFeeOp op e) := by
  cases op with
  | save curr =>
      cases curr <;>
        simp [applyPaymentFeeOp, enrollmentPreSave, enrollmentFeeInvariant]
  | methodUpdatePayment curr amount inst now =>
      cases curr <;>
        simp [applyPaymentFeeOp, enrollmentUpdatePayment, enrollmentPreSave,
          enrollmentFeeInvariant]
  | postSavePropagation amount =>
      simpa [applyPaymentFeeOp, paymentPostSaveOnEnrollment, applyEnrollmentFeeUpdate,
        paymentEnrollmentUpdateDoc, castSetValueToNumber] using h

/-- Witness for C1 at a concrete enrollment and operation. -/
theorem c1_enrollment_fee_invariant_witness :
    enrollmentFeeInvariant
      (applyPaymentFeeOp (PaymentFeeOp.postSavePropagation 500)
        { enrollmentId := 1, student := 1, course := 1, batch := none,
          status := .active, fees := { total := 10000, paid := 4000, pending := 6000 },
          paymentPlan := [], progress := { percentage := 0, completedModules := [], lastAccessed := none },
          attendance := [] }) :=
  c1_enrollment_fee_invariant _ _ (by simp only [enrollmentFeeInvariant]; decide)

/-- Claim C7: the course stats recount equals the group-by-status recount
over the enrollments referencing the course, and scenario E (3 enrollments:
2 active, 1 completed) yields `{totalEnrolled := 3, active := 2,
completed := 1, dropout := 0}`. -/
theorem c7_course_stats_recount :
    (∀ (es : List Enrollment) (courseId : Nat),
        updateCourseEnrollmentStats es courseId =
          { totalEnrolled := (es.filter (fun e => e.course = courseId)).length
            active := (es.filter (fun e => e.course = courseId)).countP
              (fun e => e.status = EnrollmentStatus.active)
            completed := (es.filter (fun e => e.course = courseId)).countP
              (fun e => e.status = EnrollmentStatus.completed)
            dropout := (es.filter (fun e => e.course = courseId)).countP
              (fun e => e.status = EnrollmentStatus.dropped) })
  ∧ updateCourseEnrollmentStats
      [{ enrollmentId := 1, student := 1, course := 1, batch := none, status := .active,
         fees := { total := 0, paid := 0, pending := 0 }, paymentPlan := [],
         progress := { percentage := 0, completedModules := [], lastAccessed := none },
         attendance := [] },
       { enrollmentId := 2, student := 2, course := 1, batch := none, status := .active,
         fees := { total := 0, paid := 0, pending := 0 }, paymentPlan := [],
         progress := { percentage := 0, completedModules := [], lastAccessed := none },
         attendance := [] },
       { enrollmentId := 3, student := 3, course := 1, batch := none, status := .completed,
         fees := { total := 0, paid := 0, pending := 0 }, paymentPlan := [],
         progress := { percentage := 0, completedModules := [], lastAccessed := none },
         attendance := [] }] 1
      = { totalEnrolled := 3, active := 2, completed := 1, dropout := 0 } := by
  constructor
  · intro es courseId
    unfold updateCourseEnrollmentStats
    have hc := fun g hg => aggregate_mem_count (es.filter (fun e => e.course = courseId)) g hg
    apply EnrollmentStats.ext
    · rw [foldStatGroups_totalEnrolled, aggregate_snd_sum]; simp
    · refine foldStatGroups_active _ _ _ (fun g hg hga => by rw [hc g hg, hga]) ?_
      rcases Nat.eq_zero_or_pos ((es.filter (fun e => e.course = courseId)).countP
          (fun e => e.status = EnrollmentStatus.active)) with hz | hp
      · exact Or.inl hz.symm
      · exact Or.inr ⟨_, aggregate_mem_of_pos _ _ hp, rfl⟩
    · refine foldStatGroups_completed _ _ _ (fun g hg hga => by rw [hc g hg, hga]) ?_
      rcases Nat.eq_zero_or_pos ((es.filter (fun e => e.course = courseId)).countP
          (fun e => e.status = EnrollmentStatus.completed)) with hz | hp
      · exact Or.inl hz.symm
      · exact Or.inr ⟨_, aggregate_mem_of_pos _ _ hp, rfl⟩
    · refine foldStatGroups_dropout _ _ _ (fun g hg hga => by rw [hc g hg, hga]) ?_
      rcases Nat.eq_zero_or_pos ((es.filter (fun e => e.course = courseId)).countP
          (fun e => e.status = EnrollmentStatus.dropped)) with hz | hp
      · exact Or.inl hz.symm
      · exact Or.inr ⟨_, aggregate_mem_of_pos _ _ hp, rfl⟩
  · decide

/-- Claim C10: the fee summary recomputes `pendingAmount` at read time as
the `|| 0`-defaulted `totalFees` minus the `|| 0`-defaulted `paidAmount`,
and its value does not depend on the stored `pendingAmount` field. -/
theorem c10_fee_summary_recomputed (s : Student) (p : Option Int) :
    (getFeeSummary s).pendingAmount
        = s.paymentPlan.totalFees.getD 0 - s.paymentPlan.paidAmount.getD 0
      ∧ getFeeSummary { s with paymentPlan := { s.paymentPlan with pendingAmount := p } }
          = getFeeSummary s := by
  exact ⟨rfl, rfl⟩

/-- Claim C6, counterexample: the batch roster cache does not report
`round(100 * presentOrLate / total)` over the attendance list.  A roster
entry with the single record `present` in a batch where two sessions have
attendance taken is cached at `round(100 * 1 / 2) = 50`, while the claimed
formula over the one-record list gives 100. -/
theorem c6_attendance_uniformity_counterexample :
    batchRosterAttendancePercentage
        [{ date := 1, session := 1, status := .present }]
        [{ date := 1, attendanceTaken := true }, { date := 2, attendanceTaken := true }] = 50
  ∧ specAttendancePercentage [{ date := 1, session := 1, status := .present }] = 100
  ∧ (50 : Nat) ≠ 100 := by
  refine ⟨?_, ?_, by decide⟩ <;> decide

/-- Claim C6 (amended): the Enrollment virtual, the enrollment-controller
helper and the inline student/course-controller copies all report
`round(100 * presentOrLateCount / totalCount)`, and 0 for an empty list; the
batch roster cache is excluded, since it divides the present-or-late count
of the entry by the number of batch sessions with attendance taken. -/
theorem c6_attendance_percentage_uniform (att : List AttendanceRecord) :
    enrollmentAttendancePercentage att = specAttendancePercentage att
  ∧ calculateAttendancePercentage att = specAttendancePercentage att
  ∧ inlineAttendancePercentage att = specAttendancePercentage att
  ∧ specAttendancePercentage [] = 0 := by
  refine ⟨rfl, rfl, ?_, rfl⟩
  unfold inlineAttendancePercentage specAttendancePercentage
  rcases Nat.eq_zero_or_pos att.length with hz | hp
  · simp [hz]
  · simp [hp, Nat.pos_iff_ne_zero.mp hp]

/-- Claim C5: adding a student to a full batch (`currentStudents >=
maxStudents`) is rejected with status 400 and message "Batch is full" and
leaves the batch value unchanged, and the enrollment-creation route likewise
rejects a full target batch with 400 ("Selected batch is full") and leaves
the store unchanged. -/
theorem c5_batch_full_rejected :
    (∀ (b : Batch) (sid now : Nat), b.currentStudents ≥ b.maxStudents →
        addStudentToBatch b sid now
          = ({ status := 400, success := false, message := "Batch is full" }, b))
  ∧ (∀ (db : DB) (req : CreateEnrollmentReq) (bid : Nat) (b : Batch),
        findDuplicateEnrollment db.enrollments req.student req.course = none →
        req.batch = some bid →
        db.batches.find? (fun x => x.batchId = bid) = some b →
        b.currentStudents ≥ b.maxStudents →
        createEnrollment db req
          = ({ status := 400, success := false, message := "Selected batch is full" }, db)) := by
  constructor
  · intro b sid now h
    simp [addStudentToBatch, h]
  · intro db req bid b hdup hb hfind hfull
    simp [createEnrollment, hdup, hb, hfind, hfull]

/-- Witness for C5 at scenario B: a batch with `maxStudents = 2` and
`currentStudents = 2` rejects a third student with "Batch is full" and keeps
`currentStudents` at 2. -/
theorem c5_batch_full_rejected_witness :
    addStudentToBatch
        { batchId := 7, course := 1, maxStudents := 2, currentStudents := 2,
          students := [{ student := 1, enrollmentDate := 0, status := .active },
                       { student := 2, enrollmentDate := 0, status := .active }],
          sessions := [] } 3 5
      = ({ status := 400, success := false, message := "Batch is full" },
         { batchId := 7, course := 1, maxStudents := 2, currentStudents := 2,
           students := [{ student := 1, enrollmentDate := 0, status := .active },
                        { student := 2, enrollmentDate := 0, status := .active }],
           sessions := [] }) :=
  c5_batch_full_rejected.1 _ 3 5 (by decide)

/-- Claim C8: completing a module is an upsert keyed by `moduleId` — an
already-present id leaves the completed-modules length unchanged, a fresh id
grows it by one — and the save then recomputes the progress percentage as
`round(100 * completedModules.length / curriculum.length)` (curriculum
non-empty). -/
theorem c8_complete_module_upsert (e : Enrollment) (curriculum : List Nat)
    (moduleId : Nat) (score : Option Int) (now : Nat)
    (hcur : 0 < curriculum.length) :
    ((∃ m ∈ e.progress.completedModules, m.moduleId = moduleId) →
        (completeModule (some curriculum) moduleId score now e).progress.completedModules.length
          = e.progress.completedModules.length)
  ∧ ((∀ m ∈ e.progress.completedModules, m.moduleId ≠ moduleId) →
        (completeModule (some curriculum) moduleId score now e).progress.completedModules.length
          = e.progress.completedModules.length + 1)
  ∧ (completeModule (some curriculum) moduleId score now e).progress.percentage
      = jsRound
          (100 * (completeModule (some curriculum) moduleId score now e).progress.completedModules.length)
          curriculum.length := by
  refine ⟨?_, ?_, ?_⟩
  · intro h
    simp [completeModule, enrollmentPreSave]
    exact upsertCompletedModule_length_of_mem _ _ h
  · intro h
    simp [completeModule, enrollmentPreSave]
    exact upsertCompletedModule_length_of_not_mem _ _ h
  · simp [completeModule, enrollmentPreSave, hcur]

/-- Witness for C8: re-completing the already-present module 5 of a sample
enrollment keeps the completed-modules length at one, and the percentage is
recomputed against the two-module curriculum. -/
theorem c8_complete_module_upsert_witness :
    (0 : Nat) < [10, 20].length
  ∧ (((∃ m ∈ enrollmentWithModuleFive.progress.completedModules, m.moduleId = 5) →
        (completeModule (some [10, 20]) 5 none 9
            enrollmentWithModuleFive).progress.completedModules.length
          = enrollmentWithModuleFive.progress.completedModules.length)
    ∧ ((∀ m ∈ enrollmentWithModuleFive.progress.completedModules, m.moduleId ≠ 5) →
        (completeModule (some [10, 20]) 5 none 9
            enrollmentWithModuleFive).progress.completedModules.length
          = enrollmentWithModuleFive.progress.completedModules.length + 1)
    ∧ (completeModule (some [10, 20]) 5 none 9
          enrollmentWithModuleFive).progress.percentage
        = jsRound
            (100 * (completeModule (some [10, 20]) 5 none 9
              enrollmentWithModuleFive).progress.completedModules.length)
            [10, 20].length) :=
  ⟨by decide,
   c8_complete_module_upsert enrollmentWithModuleFive [10, 20] 5 none 9 (by decide)⟩

/-- Claim C2: the student payment endpoint does credit `paidAmount` by the
amount and recompute `pendingAmount` (scenario A: 10000/0 plus 4000 gives
4000/6000), but the post-save propagation of a Payment — the only mechanism
that credits a linked enrollment — is a rejected update that changes
nothing: at the failing input, a completed payment of 4000 linked to an
enrollment with `fees = {total: 10000, paid: 0}` leaves `fees.paid` at 0
instead of the claimed 4000. -/
theorem c2_payment_propagation_failure :
    paymentPostSaveOnEnrollment 4000 enrollmentTenK = enrollmentTenK
  ∧ (paymentPostSaveOnEnrollment 4000 enrollmentTenK).fees.paid = 0
  ∧ (recordStudentPayment studentTenK 4000 none 1 0).1.paymentPlan.paidAmount = some 4000
  ∧ (recordStudentPayment studentTenK 4000 none 1 0).1.paymentPlan.pendingAmount = some 6000 := by
  exact ⟨rfl, rfl, rfl, rfl⟩

/-- Claim C3, counterexample: enrollment creation increments a batch seat
counter without touching the roster, so the seat invariant fails right after
a successful create — the empty batch 7 satisfies the invariant, the create
succeeds, and the updated batch has `currentStudents = 1` over an empty
roster. -/
theorem c3_batch_seat_invariant_counterexample :
    batchSeatInvariant batchSeven
  ∧ (createEnrollment dbWithBatchSeven reqBatchSeven).1.success = true
  ∧ (createEnrollment dbWithBatchSeven reqBatchSeven).2.batches
      = [{ batchSeven with currentStudents := 1 }]
  ∧ ¬ batchSeatInvariant { batchSeven with currentStudents := 1 } := by
  refine ⟨?_, by decide, by decide, ?_⟩ <;>
    simp only [batchSeatInvariant, activeRosterCount] <;> decide

/-- Claim C3 (amended): the add-student-to-batch operation preserves
`currentStudents = count(active roster entries)` and keeps
`currentStudents ≤ maxStudents` after a successful add, and a successful
removal keeps the counter non-negative; the invariant is not maintained by
enrollment creation or deletion, which adjust `currentStudents` without
touching the roster. -/
theorem c3_batch_seat_invariant_amended :
    (∀ (b : Batch) (sid now : Nat), batchSeatInvariant b →
        batchSeatInvariant (addStudentToBatch b sid now).2
      ∧ ((addStudentToBatch b sid now).1.success = true →
          (addStudentToBatch b sid now).2.currentStudents ≤ b.maxStudents))
  ∧ (∀ (b : Batch) (sid : Nat), (removeStudentFromBatch b sid).1.success = true →
        0 ≤ (removeStudentFromBatch b sid).2.currentStudents) := by
  constructor
  · intro b sid now hinv
    unfold addStudentToBatch
    by_cases hfull : b.currentStudents ≥ b.maxStudents
    · simp [hfull]
      exact hinv
    · by_cases hdup : b.students.any (fun s => s.student = sid) = true
      · simp [hfull, hdup]
        exact hinv
      · simp [hfull, hdup]
        constructor
        · simp [batchSeatInvariant, activeRosterCount, List.filter_append] at hinv ⊢
          omega
        · omega
  · intro b sid hsucc
    unfold removeStudentFromBatch at hsucc ⊢
    by_cases hmem : b.students.any (fun s => s.student = sid) = true
    · simp [hmem]
    · simp [hmem] at hsucc

/-- Witness for C3 (amended) at a concrete batch: adding student 1 to the
empty batch 7 keeps the seat invariant and stays within capacity. -/
theorem c3_batch_seat_invariant_amended_witness :
    batchSeatInvariant batchSeven
  ∧ (batchSeatInvariant (addStudentToBatch batchSeven 1 0).2
    ∧ ((addStudentToBatch batchSeven 1 0).1.success = true →
        (addStudentToBatch batchSeven 1 0).2.currentStudents ≤ batchSeven.maxStudents)) :=
  ⟨by simp only [batchSeatInvariant, activeRosterCount]; decide,
   c3_batch_seat_invariant_amended.1 batchSeven 1 0
     (by simp only [batchSeatInvariant, activeRosterCount]; decide)⟩

/-- Claim C4, counterexample: a duplicate (student, course) enrollment in
status active is rejected, but with HTTP 400 (BadRequest), not with the
Conflict status the claim names — the taxonomy of the spec separates
Conflict (409) from BadRequest (400). -/
theorem c4_conflict_counterexample :
    (createEnrollment dbWithActiveEnrollment
        { student := 1, course := 1, batch := none, status := .pending,
          fees := { total := 1000, paid := 0, pending := 0 } }).1.status = 400
  ∧ (createEnrollment dbWithActiveEnrollment
        { student := 1, course := 1, batch := none, status := .pending,
          fees := { total := 1000, paid := 0, pending := 0 } }).1.status ≠ httpConflict := by
  exact ⟨by decide, by decide⟩

/-- Claim C4 (amended): creating an enrollment for a (student, course) pair
that already has an enrollment in status pending or active — on either the
enrollment-creation route or the student-enrollment route — is rejected with
HTTP 400 and the duplicate-enrollment message, and the store is returned
unchanged (no enrollment is created). -/
theorem c4_duplicate_enrollment_rejected :
    (∀ (db : DB) (req : CreateEnrollmentReq) (e : Enrollment),
        findDuplicateEnrollment db.enrollments req.student req.course = some e →
        createEnrollment db req
          = ({ status := 400, success := false,
               message := "Student is already enrolled or has a pending enrollment for this course" },
             db))
  ∧ (∀ (db : DB) (sid : Nat) (req : EnrollStudentReq) (s : Student) (e : Enrollment),
        db.students.find? (fun x => x.studentId = sid) = some s →
        findDuplicateEnrollment db.enrollments sid req.course = some e →
        enrollStudent db sid req
          = ({ status := 400, success := false,
               message := "Student is already enrolled or has a pending enrollment for this course" },
             db)) := by
  constructor
  · intro db req e h
    simp [createEnrollment, h]
  · intro db sid req s e hs h
    simp [enrollStudent, hs, h]

/-- Witness for C4 (amended): the concrete duplicate of
`activeEnrollmentOneOne` is rejected with 400 and the store is unchanged. -/
theorem c4_duplicate_enrollment_rejected_witness :
    findDuplicateEnrollment dbWithActiveEnrollment.enrollments 1 1
        = some activeEnrollmentOneOne
  ∧ createEnrollment dbWithActiveEnrollment
        { student := 1, course := 1, batch := none, status := .pending,
          fees := { total := 1000, paid := 0, pending := 0 } }
      = ({ status := 400, success := false,
           message := "Student is already enrolled or has a pending enrollment for this course" },
         dbWithActiveEnrollment) :=
  ⟨by decide,
   c4_duplicate_enrollment_rejected.1 dbWithActiveEnrollment
     { student := 1, course := 1, batch := none, status := .pending,
       fees := { total := 1000, paid := 0, pending := 0 } }
     activeEnrollmentOneOne (by decide)⟩

/-- Claim C9 fails on the code: the conversion endpoint builds the Student
document without a payment plan, the schema requires `paymentPlan.totalFees`
with no default, so `Student.create` rejects the document with a
ValidationError on every conversion attempt, the catch block (11000 only)
answers 500 "Server error", no Student is created and the lead is never
marked converted.  Evaluated at the concrete unconverted lead 9: the
document indeed carries no `totalFees`, the create is rejected, the
endpoint answers 500, and the store — students and lead alike — is
unchanged; a second attempt behaves identically. -/
theorem c9_lead_conversion_validation_bug :
    leadNine.convertedToStudent = false
  ∧ (leadStudentDoc leadNine (dbWithLeadNine.studentSeq + 1)).paymentPlan.totalFees = none
  ∧ studentCreate (leadStudentDoc leadNine (dbWithLeadNine.studentSeq + 1)) = none
  ∧ convertToStudent dbWithLeadNine 9 3
      = ({ status := 500, success := false, message := "Server error" }, dbWithLeadNine)
  ∧ (convertToStudent dbWithLeadNine 9 3).2.students = []
  ∧ (convertToStudent dbWithLeadNine 9 3).2.leads = [leadNine]
  ∧ convertToStudent (convertToStudent dbWithLeadNine 9 3).2 9 4
      = ({ status := 500, success := false, message := "Server error" }, dbWithLeadNine) := by
  exact ⟨rfl, rfl, rfl, rfl, rfl, rfl, rfl⟩

end StudentDB
